import Mathlib

/-!
Shallow embedding of the AITravelPlanner notification / price-alert
subsystem (backend/models/database.py, backend/services/notification_service.py,
backend/api_server.py) and proofs of the frozen claims about it.

Modelling conventions:
* sqlite tables are Lean lists of structure values; `INSERT` appends,
  `UPDATE ... WHERE` maps over the list, `SELECT ... WHERE` filters.
* Python floats are rationals (ℚ); Python `round(x, 2)` is modelled as
  round-half-to-even on rationals (`round2`).
* A raised Python exception is an `Except.error` value; the only exception
  the claims touch is the `TypeError` raised by `dict(None)` in
  `update_price_alert` when `fetchone()` finds no row.
* Python truthiness tests on numbers (`if old_price`, `if new_price`,
  `if user_id`) are explicit `≠ 0` tests; on `Optional` arguments `None`
  is `Option.none`.
* Nondeterministic externals (the live price fetchers, websocket send
  success, wall-clock timestamps) are oracle parameters.
-/

namespace AITravel

/-- Round-half-to-even of a rational to an integer, the tie-breaking rule of
Python's built-in `round`. -/
def roundHalfEven (q : ℚ) : ℤ :=
  let f := ⌊q⌋
  if q - f < 1/2 then f
  else if 1/2 < q - f then f + 1
  else if Even f then f else f + 1

/-- Python `round(x, 2)`: two-decimal rounding, half to even. -/
def round2 (q : ℚ) : ℚ := (roundHalfEven (q * 100) : ℚ) / 100

/-- ASCII model of Python `str.title()`: the first letter of every
alphabetic run is uppercased, the rest lowercased. -/
def pyTitleGo : Bool → List Char → List Char
  | _, [] => []
  | prevAlpha, c :: cs =>
      (if prevAlpha then c.toLower else c.toUpper) :: pyTitleGo c.isAlpha cs

/-- Python `str.title()`. -/
def pyTitle (s : String) : String := ⟨pyTitleGo false s.data⟩

/-- Display rendering of a price in a notification message.  The source
formats with thousands separators and zero decimal places
(`f"₹{price:,.0f}"`); no claim inspects the message text, so the rendering
here is plain `toString` of the rational. -/
def formatPrice (q : ℚ) : String := toString q

/-- A row of the `price_alerts` table. -/
structure PriceAlert where
  id : Nat
  user_id : Int
  alert_type : String
  search_params : String
  initial_price : ℚ
  current_price : ℚ
  target_price : Option ℚ
  is_active : Bool
  last_checked : Nat
deriving Repr, DecidableEq

/-- The structured `data` payload stored with a price-change notification
(the JSON dict built in `PriceAlertService.check_and_notify`). -/
structure PriceChangeData where
  alert_id : Nat
  old_price : ℚ
  new_price : ℚ
  change_percent : ℚ
  search_params : String
deriving Repr, DecidableEq

/-- A row of the `notifications` table. -/
structure Notification where
  id : Nat
  user_id : Int
  title : String
  message : String
  notification_type : String
  data : Option PriceChangeData
  is_read : Bool
  created_at : Nat
deriving Repr, DecidableEq

/-- The sqlite database state the claims touch. -/
structure DB where
  price_alerts : List PriceAlert
  notifications : List Notification
  next_notification_id : Nat
deriving Repr, DecidableEq

/-- The Python exception raised by `update_price_alert` when the
`SELECT` finds no row: `dict(cursor.fetchone())` is `dict(None)`, a
`TypeError`.  (There is no structured NotFound result in the source.) -/
inductive PyError where
  | typeErrorNoneNotIterable
deriving Repr, DecidableEq

/-- `database.create_notification`: INSERT a notification row, return the
new rowid.  `created_at` is sqlite's `CURRENT_TIMESTAMP`, passed in as
`now`. -/
def create_notification (db : DB) (user_id : Int) (title message : String)
    (notification_type : String) (data : Option PriceChangeData) (now : Nat) :
    DB × Nat :=
  let nid := db.next_notification_id
  ({ db with
      notifications := db.notifications ++
        [{ id := nid, user_id := user_id, title := title, message := message,
           notification_type := notification_type, data := data,
           is_read := false, created_at := now }],
      next_notification_id := nid + 1 },
   nid)

/-- Notifications ordered by `created_at DESC` put the newer one first. -/
def newerFirst (a b : Notification) : Prop := b.created_at ≤ a.created_at

instance : DecidableRel newerFirst := fun a b => Nat.decLe b.created_at a.created_at

instance : IsTotal Notification newerFirst :=
  ⟨fun a b => (Nat.le_total b.created_at a.created_at).elim Or.inl Or.inr⟩

instance : IsTrans Notification newerFirst :=
  ⟨fun _ _ _ hab hbc => le_trans hbc hab⟩

/-- `database.get_user_notifications`: with `unread_only` every unread row of
the user, ordered `created_at DESC`; otherwise all rows of the user, ordered
`created_at DESC`, `LIMIT 50`. -/
def get_user_notifications (db : DB) (user_id : Int) (unread_only : Bool) :
    List Notification :=
  if unread_only then
    List.insertionSort newerFirst
      (db.notifications.filter (fun n => decide (n.user_id = user_id) && !n.is_read))
  else
    (List.insertionSort newerFirst
      (db.notifications.filter (fun n => decide (n.user_id = user_id)))).take 50

/-- `database.get_active_price_alerts`: rows with `is_active = 1`, filtered
to one user when the `user_id` argument is truthy (Python `if user_id:` is
false for both `None` and `0`). -/
def get_active_price_alerts (db : DB) (user_id : Option Int) : List PriceAlert :=
  match user_id with
  | some uid =>
      if uid ≠ 0 then
        db.price_alerts.filter (fun a => decide (a.user_id = uid) && a.is_active)
      else
        db.price_alerts.filter (fun a => a.is_active)
  | none => db.price_alerts.filter (fun a => a.is_active)

/-- The change descriptor returned by `database.update_price_alert`. -/
structure PriceChangeResult where
  alert_id : Nat
  old_price : ℚ
  new_price : ℚ
  price_change : ℚ
  percent_change : ℚ
  user_id : Int
  alert_type : String
  search_params : String
deriving Repr, DecidableEq

/-- `database.update_price_alert`: `SELECT * WHERE id = ?`, `fetchone()`;
when no row matches, `dict(None)` raises `TypeError` before any write.
Otherwise compute the deltas (`percent_change` is `0` when the stored
price is falsy, i.e. `0`), overwrite `current_price` and `last_checked`,
and return the change descriptor with `percent_change` rounded to two
decimals. -/
def update_price_alert (db : DB) (alert_id : Nat) (current_price : ℚ) (now : Nat) :
    Except PyError (DB × PriceChangeResult) :=
  match db.price_alerts.find? (fun a => decide (a.id = alert_id)) with
  | none => .error .typeErrorNoneNotIterable
  | some alert =>
      let old_price := alert.current_price
      let price_change := current_price - old_price
      let percent_change := if old_price ≠ 0 then price_change / old_price * 100 else 0
      .ok ({ db with
              price_alerts := db.price_alerts.map (fun a =>
                if a.id = alert_id then
                  { a with current_price := current_price, last_checked := now }
                else a) },
           { alert_id := alert_id
             old_price := old_price
             new_price := current_price
             price_change := price_change
             percent_change := round2 percent_change
             user_id := alert.user_id
             alert_type := alert.alert_type
             search_params := alert.search_params })

/-- `NotificationService.send_notification`: delegates to
`create_notification` and returns the new notification id. -/
def send_notification (db : DB) (user_id : Int) (title message : String)
    (notification_type : String := "info") (data : Option PriceChangeData := none)
    (now : Nat := 0) : DB × Nat :=
  create_notification db user_id title message notification_type data now

/-- `PriceAlertService.check_and_notify`: run `update_price_alert` (its
`TypeError` propagates), then if the absolute rounded percent change is at
least 5 build the direction-tagged notification and persist it via
`send_notification`, returning the change descriptor; otherwise return
`None`. -/
def check_and_notify (db : DB) (alert_id : Nat) (new_price : ℚ) (now : Nat) :
    Except PyError (DB × Option PriceChangeResult) :=
  match update_price_alert db alert_id new_price now with
  | .error e => .error e
  | .ok (db1, result) =>
      if 5 ≤ |result.percent_change| then
        let price_direction := if result.price_change < 0 then "dropped" else "increased"
        let emoji := if result.price_change < 0 then "📉" else "📈"
        let notification_type :=
          if result.price_change < 0 then "price_drop" else "price_increase"
        let db2 := (send_notification db1 result.user_id
          (emoji ++ " Price " ++ pyTitle price_direction ++ "!")
          (pyTitle result.alert_type ++ " price " ++ price_direction ++ " by "
            ++ toString |result.percent_change| ++ "% (₹"
            ++ formatPrice result.old_price ++ " → ₹"
            ++ formatPrice result.new_price ++ ")")
          notification_type
          (some { alert_id := alert_id
                  old_price := result.old_price
                  new_price := result.new_price
                  change_percent := result.percent_change
                  search_params := result.search_params })
          now).1
        .ok (db2, some result)
      else
        .ok (db1, none)

/-- What happened to one alert inside the monitor tick's per-alert
`try/except` body. -/
inductive StepOutcome where
  /-- `alert_type` neither `"flight"` nor `"hotel"`: the loop `continue`s. -/
  | skippedUnknownType
  /-- the fetcher returned `None` (provider error, timeout, empty result). -/
  | fetchReturnedNone
  /-- the fetcher returned `0`, falsy under Python `if new_price:`. -/
  | priceFalsy
  /-- `check_and_notify` updated the price and sent a notification. -/
  | notified
  /-- `check_and_notify` updated the price; change below threshold. -/
  | updatedNoChange
  /-- an exception inside the body was caught, logged and swallowed. -/
  | errorCaught
deriving Repr, DecidableEq

/-- The body of `run_price_monitor`'s per-alert loop, for one alert.  The
live price fetchers (`check_flight_price`, `check_hotel_price`, both
returning `Optional[float]`) are oracle parameters.  Any exception raised
by `check_and_notify` is caught by the surrounding `try/except` (the only
modelled raise happens before any write, so the database is unchanged). -/
def monitor_process_alert (fetchFlight fetchHotel : String → Option ℚ)
    (db : DB) (alert : PriceAlert) (now : Nat) : DB × StepOutcome :=
  let afterFetch : Option ℚ → DB × StepOutcome := fun new_price =>
    match new_price with
    | none => (db, .fetchReturnedNone)
    | some p =>
        if p = 0 then (db, .priceFalsy)
        else
          match check_and_notify db alert.id p now with
          | .error _ => (db, .errorCaught)
          | .ok (db', some _) => (db', .notified)
          | .ok (db', none) => (db', .updatedNoChange)
  if alert.alert_type = "flight" then afterFetch (fetchFlight alert.search_params)
  else if alert.alert_type = "hotel" then afterFetch (fetchHotel alert.search_params)
  else (db, .skippedUnknownType)

/-- One iteration of `run_price_monitor`'s outer `while` body: read the
active alerts once, then process each in order, accumulating the database
state and a log of (alert, outcome) pairs. -/
def run_monitor_tick (fetchFlight fetchHotel : String → Option ℚ)
    (db : DB) (now : Nat) : DB × List (PriceAlert × StepOutcome) :=
  (get_active_price_alerts db none).foldl
    (fun acc alert =>
      let step := monitor_process_alert fetchFlight fetchHotel acc.1 alert now
      (step.1, acc.2 ++ [(alert, step.2)]))
    (db, [])

/-- The module-level monitor state: the `_price_monitor_running` flag and
the threads spawned so far (`_price_monitor_thread` is the last one). -/
structure MonitorState where
  running : Bool
  threads : List Nat
  next_thread : Nat
deriving Repr, DecidableEq

/-- Result of `start_price_monitor`. -/
inductive StartStatus where
  | already_running
  | started
deriving Repr, DecidableEq

/-- `start_price_monitor`: if the flag is set report `already_running` and
spawn nothing; otherwise set the flag and spawn one new monitor thread. -/
def start_price_monitor (s : MonitorState) : MonitorState × StartStatus :=
  if s.running then (s, .already_running)
  else
    ({ running := true, threads := s.threads ++ [s.next_thread],
       next_thread := s.next_thread + 1 },
     .started)

/-- `stop_price_monitor`: clear the flag. -/
def stop_price_monitor (s : MonitorState) : MonitorState × String :=
  ({ s with running := false }, "stopped")

/-- `run_price_monitor`'s outer loop: `while _price_monitor_running: tick;
sleep`.  `flags` is the sequence of values the loop reads from the shared
flag at each wake (the read happens at the top of each iteration); the
result is the final database and the number of ticks executed. -/
def run_price_monitor (fetchFlight fetchHotel : String → Option ℚ)
    (flags : List Bool) (db : DB) (now : Nat) : DB × Nat :=
  match flags with
  | [] => (db, 0)
  | flag :: rest =>
      if flag then
        let db' := (run_monitor_tick fetchFlight fetchHotel db now).1
        let r := run_price_monitor fetchFlight fetchHotel rest db' now
        (r.1, r.2 + 1)
      else (db, 0)

/-- One stored location sample: the payload dict (kept abstract as a
string) merged with the `stored_at` timestamp
(`{**location, "stored_at": datetime.now().isoformat()}`). -/
structure LocationSample where
  payload : String
  stored_at : String
deriving Repr, DecidableEq

/-- `api_server.ConnectionManager`: `active_connections` maps a channel
name to its set of websocket connections (connections are identified by
naturals), `location_history` maps a trip id to its list of samples.
Python dicts are association lists with unique keys. -/
structure ConnectionManager where
  active_connections : List (String × List Nat)
  location_history : List (String × List LocationSample)
deriving Repr, DecidableEq

/-- The manager built by `ConnectionManager.__init__`: both dicts empty. -/
def initialManager : ConnectionManager := ⟨[], []⟩

/-- Python dict assignment `d[k] = v` on an association list. -/
def setKey {α : Type} (l : List (String × α)) (k : String) (v : α) :
    List (String × α) :=
  if (l.lookup k).isSome then
    l.map (fun e => if e.1 = k then (e.1, v) else e)
  else
    l ++ [(k, v)]

/-- `ConnectionManager.broadcast`: when the channel is unknown, do nothing;
otherwise attempt `send_json` on every connection of the channel (the
oracle `sendOk` says which sends succeed — a failing send raises and the
bare `except` marks the connection dead), then discard exactly the dead
connections from the channel's set.  Returns the new manager and the list
of (connection, message) deliveries. -/
def broadcast {M : Type} (mgr : ConnectionManager) (channel : String) (msg : M)
    (sendOk : Nat → Bool) : ConnectionManager × List (Nat × M) :=
  match mgr.active_connections.lookup channel with
  | none => (mgr, [])
  | some conns =>
      ({ mgr with
          active_connections := mgr.active_connections.map (fun e =>
            if e.1 = channel then (e.1, conns.filter sendOk) else e) },
       (conns.filter sendOk).map (fun c => (c, msg)))

/-- `ConnectionManager.get_connection_count`: count of one channel when the
`channel` argument is truthy (Python `if channel:` is false for `None` and
for the empty string), otherwise the total over all channels. -/
def get_connection_count (mgr : ConnectionManager) (channel : Option String) : Nat :=
  match channel with
  | some ch =>
      if ch ≠ "" then ((mgr.active_connections.lookup ch).getD []).length
      else (mgr.active_connections.map (fun e => e.2.length)).sum
  | none => (mgr.active_connections.map (fun e => e.2.length)).sum

/-- `ConnectionManager.store_location`: ensure the trip has a history list,
append the stamped sample, and when the list exceeds 1000 entries keep only
the last 1000 (`history[-1000:]`). -/
def store_location (mgr : ConnectionManager) (trip_id : String)
    (location : String) (now : String) : ConnectionManager :=
  let hist := (mgr.location_history.lookup trip_id).getD []
  let hist' := hist ++ [{ payload := location, stored_at := now }]
  let hist'' := if 1000 < hist'.length then hist'.drop (hist'.length - 1000) else hist'
  { mgr with location_history := setKey mgr.location_history trip_id hist'' }

/-- `ConnectionManager.get_location_history`. -/
def get_location_history (mgr : ConnectionManager) (trip_id : String) :
    List LocationSample :=
  (mgr.location_history.lookup trip_id).getD []

/-- Every per-trip location history holds at most 1000 samples. -/
def boundedHistories (mgr : ConnectionManager) : Prop :=
  ∀ e ∈ mgr.location_history, e.2.length ≤ 1000

/-- The structured event pushed by `send_alert_to_user`:
`{"type": "price_alert", "data": alert, "timestamp": now}`. -/
structure AlertEvent where
  type : String
  data : String
  timestamp : String
deriving Repr, DecidableEq

/-- `api_server.send_alert_to_user`: broadcast the structured price-alert
event on the user's `alerts_{user_id}` channel.  (Defined in the source but
never invoked by any caller.) -/
def send_alert_to_user (mgr : ConnectionManager) (user_id : String)
    (alert : String) (now : String) (sendOk : Nat → Bool) :
    ConnectionManager × List (Nat × AlertEvent) :=
  broadcast mgr ("alerts_" ++ user_id)
    { type := "price_alert", data := alert, timestamp := now } sendOk

/-- The price-change path at the level of the whole process state
(database plus websocket registry).  `notification_service.py` has no
reference to the `ConnectionManager` (`send_alert_to_user` has no caller),
so the path leaves the registry untouched and pushes no events: the third
component, the list of pushed alert events, is empty. -/
def check_and_notify_system (db : DB) (mgr : ConnectionManager)
    (alert_id : Nat) (new_price : ℚ) (now : Nat) :
    Except PyError ((DB × ConnectionManager) × Option PriceChangeResult × List (Nat × AlertEvent)) :=
  match check_and_notify db alert_id new_price now with
  | .error e => .error e
  | .ok (db', r) => .ok ((db', mgr), r, [])

/-! ### Concrete fixtures used by counterexamples and witnesses -/

/-- A flight alert for user 1 whose stored price is 1000. -/
def exampleAlert : PriceAlert :=
  { id := 1, user_id := 1, alert_type := "flight", search_params := "DEL-BOM",
    initial_price := 1000, current_price := 1000, target_price := none,
    is_active := true, last_checked := 0 }

/-- A database holding only `exampleAlert` and no notifications. -/
def exampleDB : DB :=
  { price_alerts := [exampleAlert], notifications := [], next_notification_id := 1 }

/-- A flight alert for user 1 whose stored price is 10000. -/
def tenKAlert : PriceAlert :=
  { id := 1, user_id := 1, alert_type := "flight", search_params := "DEL-BOM",
    initial_price := 10000, current_price := 10000, target_price := none,
    is_active := true, last_checked := 0 }

/-- A database holding only `tenKAlert` and no notifications. -/
def tenKDB : DB :=
  { price_alerts := [tenKAlert], notifications := [], next_notification_id := 1 }

/-- A hotel alert whose stored current price is 0. -/
def zeroPriceAlert : PriceAlert :=
  { id := 2, user_id := 3, alert_type := "hotel", search_params := "GOA",
    initial_price := 0, current_price := 0, target_price := none,
    is_active := true, last_checked := 0 }

/-- A database holding only `zeroPriceAlert`. -/
def zeroPriceDB : DB :=
  { price_alerts := [zeroPriceAlert], notifications := [], next_notification_id := 1 }

/-- A flight alert owned by user 7, stored price 1000. -/
def wsAlert : PriceAlert :=
  { id := 1, user_id := 7, alert_type := "flight", search_params := "DEL-BOM",
    initial_price := 1000, current_price := 1000, target_price := none,
    is_active := true, last_checked := 0 }

/-- A database holding only `wsAlert`. -/
def wsDB : DB :=
  { price_alerts := [wsAlert], notifications := [], next_notification_id := 1 }

/-- A registry in which user 7 has one open connection on their alerts
channel. -/
def wsManager : ConnectionManager := ⟨[("alerts_7", [0])], []⟩

/-- A registry with two connections open on channel `trip_42`. -/
def tripManager : ConnectionManager := ⟨[("trip_42", [1, 2])], []⟩

/-- A deactivated alert. -/
def inactiveAlert : PriceAlert :=
  { id := 9, user_id := 1, alert_type := "flight", search_params := "BLR-DEL",
    initial_price := 2000, current_price := 2000, target_price := none,
    is_active := false, last_checked := 0 }

/-- An alert of unknown kind (neither `"flight"` nor `"hotel"`). -/
def taxiAlert : PriceAlert :=
  { id := 4, user_id := 1, alert_type := "taxi", search_params := "CITY",
    initial_price := 300, current_price := 300, target_price := none,
    is_active := true, last_checked := 0 }

/-- 51 notifications for user 1 with strictly increasing creation times. -/
def manyNotifications : List Notification :=
  (List.range 51).map (fun i =>
    { id := i, user_id := 1, title := "t", message := "m",
      notification_type := "info", data := none, is_read := false,
      created_at := i })

/-- A database whose notifications table holds `manyNotifications`. -/
def manyDB : DB :=
  { price_alerts := [], notifications := manyNotifications,
    next_notification_id := 51 }

/-- The oldest of `manyNotifications` (creation time 0). -/
def oldestNotification : Notification :=
  { id := 0, user_id := 1, title := "t", message := "m",
    notification_type := "info", data := none, is_read := false,
    created_at := 0 }

/-- The newest of `manyNotifications` (creation time 50). -/
def newestNotification : Notification :=
  { id := 50, user_id := 1, title := "t", message := "m",
    notification_type := "info", data := none, is_read := false,
    created_at := 50 }

/-! ### Helper lemmas -/

theorem roundHalfEven_of_lt_half (q : ℚ) (z : ℤ) (hz : ⌊q⌋ = z)
    (h : q - z < 1/2) : roundHalfEven q = z := by
  simp only [roundHalfEven, hz]
  rw [if_pos h]

theorem roundHalfEven_of_half_lt (q : ℚ) (z : ℤ) (hz : ⌊q⌋ = z)
    (h : 1/2 < q - z) : roundHalfEven q = z + 1 := by
  simp only [roundHalfEven, hz]
  rw [if_neg (by linarith), if_pos h]

theorem round2_zero : round2 0 = 0 := by
  have h : roundHalfEven (0 : ℚ) = 0 := by
    apply roundHalfEven_of_lt_half <;> norm_num
  simp [round2, h]

theorem round2_eq_down (q : ℚ) (z : ℤ) (h1 : (z : ℚ) ≤ q * 100)
    (h2 : q * 100 < z + 1/2) : round2 q = (z : ℚ) / 100 := by
  have hfl : ⌊q * 100⌋ = z := by
    rw [Int.floor_eq_iff]
    exact ⟨h1, by linarith⟩
  rw [round2, roundHalfEven_of_lt_half _ z hfl (by linarith)]

theorem round2_eq_up (q : ℚ) (z : ℤ) (h1 : (z : ℚ) + 1/2 < q * 100)
    (h2 : q * 100 < z + 1) : round2 q = ((z : ℚ) + 1) / 100 := by
  have hfl : ⌊q * 100⌋ = z := by
    rw [Int.floor_eq_iff]
    exact ⟨by linarith, by linarith⟩
  rw [round2, roundHalfEven_of_half_lt _ z hfl (by linarith)]
  push_cast
  ring_nf

theorem update_price_alert_some (db : DB) (alert_id : Nat) (p : ℚ) (now : Nat)
    (a : PriceAlert)
    (hfind : db.price_alerts.find? (fun x => decide (x.id = alert_id)) = some a) :
    update_price_alert db alert_id p now =
      .ok ({ db with price_alerts := db.price_alerts.map (fun x =>
                if x.id = alert_id then
                  { x with current_price := p, last_checked := now }
                else x) },
           { alert_id := alert_id
             old_price := a.current_price
             new_price := p
             price_change := p - a.current_price
             percent_change := round2 (if a.current_price ≠ 0 then
                 (p - a.current_price) / a.current_price * 100 else 0)
             user_id := a.user_id
             alert_type := a.alert_type
             search_params := a.search_params }) := by
  simp [update_price_alert, hfind]

/-! ### Claim C9 -/

/-- C9 (confirmed): when the stored current price is 0, `update_price_alert`
defines `percent_change` as 0 (no division by zero), so `check_and_notify`
completes without error, leaves the notifications table unchanged and
returns no change descriptor, whatever the new price. -/
theorem claim_C9 (db : DB) (alert_id : Nat) (p : ℚ) (now : Nat) (a : PriceAlert)
    (hfind : db.price_alerts.find? (fun x => decide (x.id = alert_id)) = some a)
    (hzero : a.current_price = 0) :
    ((update_price_alert db alert_id p now).toOption.map
        (fun x => x.2.percent_change) = some 0)
    ∧ ((check_and_notify db alert_id p now).toOption.map
        (fun x => (x.1.notifications, x.2)) = some (db.notifications, none)) := by
  constructor
  · simp [update_price_alert, hfind, hzero, round2_zero, Except.toOption]
  · norm_num [check_and_notify, update_price_alert, hfind, hzero, round2_zero,
      Except.toOption]

/-- Witness for C9 at a concrete zero-price alert. -/
theorem claim_C9_witness :
    (zeroPriceDB.price_alerts.find? (fun x => decide (x.id = 2)) = some zeroPriceAlert)
    ∧ (zeroPriceAlert.current_price = 0)
    ∧ ((update_price_alert zeroPriceDB 2 (500 : ℚ) 0).toOption.map
        (fun x => x.2.percent_change) = some 0)
    ∧ ((check_and_notify zeroPriceDB 2 (500 : ℚ) 0).toOption.map
        (fun x => (x.1.notifications, x.2)) = some (zeroPriceDB.notifications, none)) := by
  refine ⟨rfl, rfl, ?_⟩
  exact claim_C9 zeroPriceDB 2 (500 : ℚ) 0 zeroPriceAlert rfl rfl

/-! ### Claim C1 -/

/-- C1 counterexample: with a stored price of 10000 and a fetched price of
10499.6 the raw percent delta is 4.996, strictly below 5, yet
`check_and_notify` persists a notification, because the code compares the
percent delta only after rounding it to two decimals (4.996 rounds to
5.00). -/
theorem claim_C1_counterexample :
    ((check_and_notify tenKDB 1 (52498/5 : ℚ) 0).toOption.map
        (fun x => x.1.notifications.length) = some 1)
    ∧ |((52498/5 : ℚ) - 10000) / 10000 * 100| < 5 := by
  constructor
  · have hfind : tenKDB.price_alerts.find? (fun x => decide (x.id = 1)) = some tenKAlert := rfl
    simp only [check_and_notify, update_price_alert_some tenKDB 1 (52498/5 : ℚ) 0 tenKAlert hfind]
    have hpct : round2 (if tenKAlert.current_price ≠ 0 then
        ((52498/5 : ℚ) - tenKAlert.current_price) / tenKAlert.current_price * 100 else 0) = 5 := by
      rw [if_pos (by norm_num [tenKAlert])]
      have harg : ((52498/5 : ℚ) - tenKAlert.current_price) / tenKAlert.current_price * 100
          = 1249/250 := by norm_num [tenKAlert]
      rw [harg, round2_eq_up (1249/250) 499 (by norm_num) (by norm_num)]
      norm_num
    rw [hpct, if_pos (by rw [abs_of_nonneg (by norm_num)])]
    simp [send_notification, create_notification, tenKDB, Except.toOption]
  · rw [abs_of_nonneg (by norm_num)]
    norm_num

/-- C1 (amended): `check_and_notify` persists a notification if and only if
the absolute value of the percent delta ROUNDED TO TWO DECIMALS
(half-to-even, Python `round(x, 2)`) is at least 5; the persisted
notification's kind is `price_drop` when the new price is lower and
`price_increase` when it is higher, and it is recorded for the alert's
owner.  A change from 1000 to 1049 (4.9%) triggers no notification and a
change from 1000 to 1050 (5.0%) triggers one. -/
theorem claim_C1_amended (db : DB) (alert_id : Nat) (p : ℚ) (now : Nat)
    (a : PriceAlert)
    (hfind : db.price_alerts.find? (fun x => decide (x.id = alert_id)) = some a)
    (h0 : a.current_price ≠ 0) :
    (¬ 5 ≤ |round2 ((p - a.current_price) / a.current_price * 100)| →
      (check_and_notify db alert_id p now).toOption.map (fun x => x.1.notifications)
        = some db.notifications)
    ∧ (5 ≤ |round2 ((p - a.current_price) / a.current_price * 100)| →
      (check_and_notify db alert_id p now).toOption.map
          (fun x => x.1.notifications.map (fun n => (n.user_id, n.notification_type)))
        = some (db.notifications.map (fun n => (n.user_id, n.notification_type))
            ++ [(a.user_id,
                 if p < a.current_price then "price_drop" else "price_increase")]))
    ∧ ((check_and_notify exampleDB 1 (1049 : ℚ) 0).toOption.map
        (fun x => x.1.notifications.length) = some 0)
    ∧ ((check_and_notify exampleDB 1 (1050 : ℚ) 0).toOption.map
        (fun x => x.1.notifications.length) = some 1) := by
  refine ⟨fun hno => ?_, fun hyes => ?_, ?_, ?_⟩
  · simp only [check_and_notify, update_price_alert_some db alert_id p now a hfind]
    rw [if_pos h0, if_neg hno]
    simp [Except.toOption]
  · simp only [check_and_notify, update_price_alert_some db alert_id p now a hfind]
    rw [if_pos h0, if_pos hyes]
    simp [send_notification, create_notification, Except.toOption, sub_neg]
  · have hfind1 : exampleDB.price_alerts.find? (fun x => decide (x.id = 1)) = some exampleAlert := rfl
    simp only [check_and_notify, update_price_alert_some exampleDB 1 (1049 : ℚ) 0 exampleAlert hfind1]
    have hpct : round2 (if exampleAlert.current_price ≠ 0 then
        ((1049 : ℚ) - exampleAlert.current_price) / exampleAlert.current_price * 100 else 0)
        = 49/10 := by
      rw [if_pos (by norm_num [exampleAlert])]
      have harg : ((1049 : ℚ) - exampleAlert.current_price) / exampleAlert.current_price * 100
          = 49/10 := by norm_num [exampleAlert]
      rw [harg, round2_eq_down (49/10) 490 (by norm_num) (by norm_num)]
      norm_num
    rw [hpct, if_neg (by rw [abs_of_nonneg (by norm_num)]; norm_num)]
    simp [exampleDB, Except.toOption]
  · have hfind1 : exampleDB.price_alerts.find? (fun x => decide (x.id = 1)) = some exampleAlert := rfl
    simp only [check_and_notify, update_price_alert_some exampleDB 1 (1050 : ℚ) 0 exampleAlert hfind1]
    have hpct : round2 (if exampleAlert.current_price ≠ 0 then
        ((1050 : ℚ) - exampleAlert.current_price) / exampleAlert.current_price * 100 else 0)
        = 5 := by
      rw [if_pos (by norm_num [exampleAlert])]
      have harg : ((1050 : ℚ) - exampleAlert.current_price) / exampleAlert.current_price * 100
          = 5 := by norm_num [exampleAlert]
      rw [harg, round2_eq_down 5 500 (by norm_num) (by norm_num)]
      norm_num
    rw [hpct, if_pos (by rw [abs_of_nonneg (by norm_num)])]
    simp [send_notification, create_notification, exampleDB, Except.toOption]

/-- Witness for C1 at the concrete 1000 → 1050 increase. -/
theorem claim_C1_witness :
    (exampleDB.price_alerts.find? (fun x => decide (x.id = 1)) = some exampleAlert)
    ∧ (exampleAlert.current_price ≠ 0)
    ∧ (5 ≤ |round2 (((1050 : ℚ) - exampleAlert.current_price) / exampleAlert.current_price * 100)|)
    ∧ ((check_and_notify exampleDB 1 (1050 : ℚ) 0).toOption.map
          (fun x => x.1.notifications.map (fun n => (n.user_id, n.notification_type)))
        = some (exampleDB.notifications.map (fun n => (n.user_id, n.notification_type))
            ++ [(exampleAlert.user_id,
                 if (1050 : ℚ) < exampleAlert.current_price then "price_drop" else "price_increase")])) := by
  have h5 : 5 ≤ |round2 (((1050 : ℚ) - exampleAlert.current_price) / exampleAlert.current_price * 100)| := by
    have harg : ((1050 : ℚ) - exampleAlert.current_price) / exampleAlert.current_price * 100
        = 5 := by norm_num [exampleAlert]
    rw [harg, round2_eq_down 5 500 (by norm_num) (by norm_num),
      abs_of_nonneg (by norm_num)]
    norm_num
  exact ⟨rfl, by norm_num [exampleAlert], h5,
    (claim_C1_amended exampleDB 1 (1050 : ℚ) 0 exampleAlert rfl
      (by norm_num [exampleAlert])).2.1 h5⟩

/-! ### Claim C3 -/

/-- C3 counterexample: calling `update_price_alert` with an id for which no
alert row exists does not produce a benign NotFound outcome: it raises a
`TypeError` (`dict(cursor.fetchone())` with `fetchone() = None`), an
unrelated hard error that the caller must catch. -/
theorem claim_C3_counterexample :
    update_price_alert exampleDB 5 (100 : ℚ) 0 = .error .typeErrorNoneNotIterable := rfl

/-- C3 (amended): when the alert id does not exist `update_price_alert`
raises `TypeError` before any write (so the monitor's per-alert handler,
which catches it, observes an unchanged database); when the alert exists
it overwrites `current_price` and returns the change descriptor with the
old price, new price, delta, rounded percent delta, owning user, kind and
search params. -/
theorem claim_C3_amended (db : DB) (alert_id : Nat) (p : ℚ) (now : Nat) :
    (db.price_alerts.find? (fun x => decide (x.id = alert_id)) = none →
      update_price_alert db alert_id p now = .error .typeErrorNoneNotIterable)
    ∧ (∀ fetchFlight fetchHotel : String → Option ℚ, ∀ alert : PriceAlert,
        db.price_alerts.find? (fun x => decide (x.id = alert.id)) = none →
        (monitor_process_alert fetchFlight fetchHotel db alert now).1 = db)
    ∧ (∀ a : PriceAlert,
        db.price_alerts.find? (fun x => decide (x.id = alert_id)) = some a →
        update_price_alert db alert_id p now =
          .ok ({ db with price_alerts := db.price_alerts.map (fun x =>
                    if x.id = alert_id then
                      { x with current_price := p, last_checked := now }
                    else x) },
               { alert_id := alert_id
                 old_price := a.current_price
                 new_price := p
                 price_change := p - a.current_price
                 percent_change := round2 (if a.current_price ≠ 0 then
                     (p - a.current_price) / a.current_price * 100 else 0)
                 user_id := a.user_id
                 alert_type := a.alert_type
                 search_params := a.search_params })) := by
  refine ⟨fun hnone => ?_, fun f h alert hnone => ?_, fun a hsome => ?_⟩
  · simp [update_price_alert, hnone]
  · simp only [monitor_process_alert]
    split
    · cases hf : f alert.search_params with
      | none => simp
      | some q =>
          simp only []
          split
          · rfl
          · simp [check_and_notify, update_price_alert, hnone]
    · split
      · cases hh : h alert.search_params with
        | none => simp
        | some q =>
            simp only []
            split
            · rfl
            · simp [check_and_notify, update_price_alert, hnone]
      · rfl
  · simp [update_price_alert, hsome]

/-- Witness for C3 at concrete inputs: a missing id raises the
`TypeError`; an existing id returns the full change descriptor. -/
theorem claim_C3_witness :
    (update_price_alert exampleDB 5 (100 : ℚ) 0 = .error .typeErrorNoneNotIterable)
    ∧ (update_price_alert exampleDB 1 (1050 : ℚ) 0 =
        .ok ({ exampleDB with price_alerts := exampleDB.price_alerts.map (fun x =>
                  if x.id = 1 then
                    { x with current_price := (1050 : ℚ), last_checked := 0 }
                  else x) },
             { alert_id := 1
               old_price := exampleAlert.current_price
               new_price := (1050 : ℚ)
               price_change := (1050 : ℚ) - exampleAlert.current_price
               percent_change := round2 (if exampleAlert.current_price ≠ 0 then
                   ((1050 : ℚ) - exampleAlert.current_price) / exampleAlert.current_price * 100 else 0)
               user_id := exampleAlert.user_id
               alert_type := exampleAlert.alert_type
               search_params := exampleAlert.search_params })) :=
  ⟨(claim_C3_amended exampleDB 5 (100 : ℚ) 0).1 rfl,
   (claim_C3_amended exampleDB 1 (1050 : ℚ) 0).2.2 exampleAlert rfl⟩

/-! ### Claims C4 and C5 -/

theorem tick_foldl_log (f h : String → Option ℚ) (now : Nat) (l : List PriceAlert) :
    ∀ (db : DB) (log : List (PriceAlert × StepOutcome)),
    ((l.foldl (fun acc alert =>
        let step := monitor_process_alert f h acc.1 alert now
        (step.1, acc.2 ++ [(alert, step.2)])) (db, log)).2).map Prod.fst
      = log.map Prod.fst ++ l := by
  induction l with
  | nil => intro db log; simp
  | cons a t ih =>
      intro db log
      simp only [List.foldl_cons]
      rw [ih]
      simp

theorem run_monitor_tick_alerts (f h : String → Option ℚ) (db : DB) (now : Nat) :
    (run_monitor_tick f h db now).2.map Prod.fst = get_active_price_alerts db none := by
  rw [run_monitor_tick, tick_foldl_log]
  simp

theorem mem_get_active_none (db : DB) (a : PriceAlert) :
    a ∈ get_active_price_alerts db none ↔ a ∈ db.price_alerts ∧ a.is_active = true := by
  simp [get_active_price_alerts, List.mem_filter]

/-- C4 (confirmed): `get_active_price_alerts` returns exactly the alerts
with `is_active` set (filtered to one user when a nonzero user id is
given), the monitor tick iterates exactly over `get_active_price_alerts`
with no user filter, and consequently an alert that is inactive at the
start of the tick is never processed (so `update_price_alert` is never
called on it). -/
theorem claim_C4 (f h : String → Option ℚ) (db : DB) (now : Nat) (u : Int)
    (hu : u ≠ 0) :
    (∀ a, a ∈ get_active_price_alerts db none ↔
        a ∈ db.price_alerts ∧ a.is_active = true)
    ∧ (∀ a, a ∈ get_active_price_alerts db (some u) ↔
        a ∈ db.price_alerts ∧ a.user_id = u ∧ a.is_active = true)
    ∧ ((run_monitor_tick f h db now).2.map Prod.fst = get_active_price_alerts db none)
    ∧ (∀ a : PriceAlert, a.is_active = false →
        ∀ o, (a, o) ∉ (run_monitor_tick f h db now).2) := by
  refine ⟨fun a => mem_get_active_none db a, fun a => ?_,
    run_monitor_tick_alerts f h db now, fun a ha o hmem => ?_⟩
  · simp only [get_active_price_alerts, if_pos hu, List.mem_filter,
      Bool.and_eq_true, decide_eq_true_eq]
  · have hm : a ∈ (run_monitor_tick f h db now).2.map Prod.fst :=
      List.mem_map_of_mem Prod.fst hmem
    rw [run_monitor_tick_alerts, mem_get_active_none] at hm
    rw [ha] at hm
    exact absurd hm.2 (by simp)

/-- Witness for C4 at a concrete database and a concrete inactive alert. -/
theorem claim_C4_witness :
    (exampleAlert ∈ get_active_price_alerts exampleDB none ↔
        exampleAlert ∈ exampleDB.price_alerts ∧ exampleAlert.is_active = true)
    ∧ ((run_monitor_tick (fun _ => none) (fun _ => none) exampleDB 0).2.map Prod.fst
        = get_active_price_alerts exampleDB none)
    ∧ ((inactiveAlert, StepOutcome.notified) ∉
        (run_monitor_tick (fun _ => none) (fun _ => none) exampleDB 0).2) :=
  ⟨(claim_C4 (fun _ => none) (fun _ => none) exampleDB 0 1 (by norm_num)).1 exampleAlert,
   (claim_C4 (fun _ => none) (fun _ => none) exampleDB 0 1 (by norm_num)).2.2.1,
   (claim_C4 (fun _ => none) (fun _ => none) exampleDB 0 1 (by norm_num)).2.2.2
     inactiveAlert rfl StepOutcome.notified⟩

/-- C5 (confirmed): within one tick an alert whose kind is neither
`"flight"` nor `"hotel"` is skipped with the database untouched and no
error surfaced, and — for arbitrary fetcher behaviour, including failures,
and arbitrary per-alert processing errors — the tick still processes every
alert of the active list, in order. -/
theorem claim_C5 (f h : String → Option ℚ) (db : DB) (now : Nat)
    (alert : PriceAlert) (h1 : alert.alert_type ≠ "flight")
    (h2 : alert.alert_type ≠ "hotel") :
    (monitor_process_alert f h db alert now = (db, .skippedUnknownType))
    ∧ ((run_monitor_tick f h db now).2.map Prod.fst = get_active_price_alerts db none)
    ∧ (∀ a, a ∈ get_active_price_alerts db none →
        ∃ o, (a, o) ∈ (run_monitor_tick f h db now).2) := by
  refine ⟨?_, run_monitor_tick_alerts f h db now, fun a ha => ?_⟩
  · simp [monitor_process_alert, h1, h2]
  · rw [← run_monitor_tick_alerts f h db now] at ha
    obtain ⟨⟨a', o⟩, hp, hfst⟩ := List.mem_map.mp ha
    simp only at hfst
    subst hfst
    exact ⟨o, hp⟩

/-- Witness for C5: a `"taxi"` alert is skipped, and the concrete tick
covers the whole active list. -/
theorem claim_C5_witness :
    (monitor_process_alert (fun _ => none) (fun _ => none) exampleDB taxiAlert 0
      = (exampleDB, .skippedUnknownType))
    ∧ ((run_monitor_tick (fun _ => none) (fun _ => none) exampleDB 0).2.map Prod.fst
        = get_active_price_alerts exampleDB none) :=
  ⟨(claim_C5 (fun _ => none) (fun _ => none) exampleDB 0 taxiAlert
      (by decide) (by decide)).1,
   (claim_C5 (fun _ => none) (fun _ => none) exampleDB 0 taxiAlert
      (by decide) (by decide)).2.1⟩

/-! ### Association-list lemmas shared by the websocket claims -/

theorem lookup_map_set {α : Type} (l : List (String × α)) (ch : String) (v : α) :
    (l.map (fun e => if e.1 = ch then (e.1, v) else e)).lookup ch
      = (l.lookup ch).map (fun _ => v) := by
  induction l with
  | nil => rfl
  | cons e t ih =>
      obtain ⟨k, w⟩ := e
      simp only [List.map_cons]
      by_cases hk : k = ch
      · subst hk
        rw [show (if (k, w).1 = k then ((k, w).1, v) else (k, w)) = (k, v) from by simp]
        simp [List.lookup]
      · rw [show (if (k, w).1 = ch then ((k, w).1, v) else (k, w)) = (k, w) from by simp [hk]]
        have hbeq : (ch == k) = false := beq_eq_false_iff_ne.mpr (Ne.symm hk)
        simp [List.lookup, hbeq, ih]

theorem lookup_map_set_ne {α : Type} (l : List (String × α)) (ch ch2 : String)
    (v : α) (h : ch2 ≠ ch) :
    (l.map (fun e => if e.1 = ch then (e.1, v) else e)).lookup ch2
      = l.lookup ch2 := by
  induction l with
  | nil => rfl
  | cons e t ih =>
      obtain ⟨k, w⟩ := e
      simp only [List.map_cons]
      by_cases hk : k = ch
      · subst hk
        rw [show (if (k, w).1 = k then ((k, w).1, v) else (k, w)) = (k, v) from by simp]
        have hbeq : (ch2 == k) = false := beq_eq_false_iff_ne.mpr h
        simp [List.lookup, hbeq, ih]
      · rw [show (if (k, w).1 = ch then ((k, w).1, v) else (k, w)) = (k, w) from by simp [hk]]
        cases hc : ch2 == k <;> simp [List.lookup, hc, ih]

theorem lookup_append_of_none {α : Type} (l1 l2 : List (String × α)) (k : String)
    (h : l1.lookup k = none) : (l1 ++ l2).lookup k = l2.lookup k := by
  induction l1 with
  | nil => rfl
  | cons e t ih =>
      obtain ⟨k1, v1⟩ := e
      cases hc : k == k1 with
      | true => simp [List.lookup, hc] at h
      | false =>
          simp only [List.lookup, hc] at h
          simpa [List.lookup, hc] using ih h

theorem lookup_append_of_some {α : Type} (l1 l2 : List (String × α)) (k : String)
    (v : α) (h : l1.lookup k = some v) : (l1 ++ l2).lookup k = some v := by
  induction l1 with
  | nil => simp [List.lookup] at h
  | cons e t ih =>
      obtain ⟨k1, v1⟩ := e
      cases hc : k == k1 with
      | true => simpa [List.lookup, hc] using h
      | false =>
          simp only [List.lookup, hc] at h
          simpa [List.lookup, hc] using ih h

theorem lookup_setKey_self {α : Type} (l : List (String × α)) (k : String) (v : α) :
    (setKey l k v).lookup k = some v := by
  unfold setKey
  by_cases hs : (l.lookup k).isSome
  · rw [if_pos hs, lookup_map_set]
    obtain ⟨w, hw⟩ := Option.isSome_iff_exists.mp hs
    rw [hw]
    rfl
  · rw [if_neg hs]
    have hnone : l.lookup k = none := Option.not_isSome_iff_eq_none.mp hs
    rw [lookup_append_of_none _ _ _ hnone]
    simp [List.lookup]

theorem lookup_setKey_ne {α : Type} (l : List (String × α)) (k k2 : String)
    (v : α) (h : k2 ≠ k) : (setKey l k v).lookup k2 = l.lookup k2 := by
  unfold setKey
  by_cases hs : (l.lookup k).isSome
  · rw [if_pos hs, lookup_map_set_ne _ _ _ _ h]
  · rw [if_neg hs]
    cases hl : l.lookup k2 with
    | some w => rw [lookup_append_of_some _ _ _ _ hl]
    | none =>
        rw [lookup_append_of_none _ _ _ hl]
        have hbeq : (k2 == k) = false := beq_eq_false_iff_ne.mpr h
        simp [List.lookup, hbeq]

theorem mem_setKey {α : Type} {l : List (String × α)} {k : String} {v : α}
    {e : String × α} (he : e ∈ setKey l k v) : e ∈ l ∨ e.2 = v := by
  unfold setKey at he
  by_cases hs : (l.lookup k).isSome
  · rw [if_pos hs] at he
    obtain ⟨x, hx, hfe⟩ := List.mem_map.mp he
    by_cases hk : x.1 = k
    · right
      rw [← hfe]
      simp [hk]
    · left
      rw [← hfe]
      simpa [hk] using hx
  · rw [if_neg hs] at he
    rcases List.mem_append.mp he with h1 | h2
    · exact Or.inl h1
    · right
      rw [List.mem_singleton.mp h2]

/-! ### Claim C6 -/

/-- C6 (confirmed): `broadcast` delivers to exactly the connections of the
channel whose send succeeds — a failing connection cannot prevent delivery
to the rest — and afterwards exactly the failing connections are removed
from the channel's membership, other channels being untouched;
broadcasting on an unknown channel is a no-op, never an error. -/
theorem claim_C6 {M : Type} (mgr : ConnectionManager) (ch : String) (msg : M)
    (sendOk : Nat → Bool) (conns : List Nat)
    (hch : mgr.active_connections.lookup ch = some conns) :
    ((broadcast mgr ch msg sendOk).2
      = (conns.filter sendOk).map (fun c => (c, msg)))
    ∧ (∀ c, c ∈ conns → sendOk c = true → (c, msg) ∈ (broadcast mgr ch msg sendOk).2)
    ∧ ((broadcast mgr ch msg sendOk).1.active_connections.lookup ch
        = some (conns.filter sendOk))
    ∧ (∀ ch2, ch2 ≠ ch →
        (broadcast mgr ch msg sendOk).1.active_connections.lookup ch2
          = mgr.active_connections.lookup ch2)
    ∧ (∀ mgr2 : ConnectionManager, mgr2.active_connections.lookup ch = none →
        broadcast mgr2 ch msg sendOk = (mgr2, [])) := by
  refine ⟨?_, fun c hc hok => ?_, ?_, fun ch2 hne => ?_, fun mgr2 hnone => ?_⟩
  · simp [broadcast, hch]
  · simp only [broadcast, hch]
    exact List.mem_map_of_mem _ (List.mem_filter.mpr ⟨hc, hok⟩)
  · simp only [broadcast, hch]
    rw [lookup_map_set, hch]
    rfl
  · simp only [broadcast, hch]
    rw [lookup_map_set_ne _ _ _ _ hne]
  · simp [broadcast, hnone]

/-- Witness for C6: two connections on `trip_42`, the send to connection 2
fails; connection 1 still receives the message and only connection 2 is
removed. -/
theorem claim_C6_witness :
    (tripManager.active_connections.lookup "trip_42" = some [1, 2])
    ∧ ((broadcast tripManager "trip_42" "msg" (fun c => decide (c = 1))).2
        = (([1, 2].filter (fun c => decide (c = 1))).map (fun c => (c, "msg"))))
    ∧ ((1, "msg") ∈ (broadcast tripManager "trip_42" "msg" (fun c => decide (c = 1))).2)
    ∧ ((broadcast tripManager "trip_42" "msg" (fun c => decide (c = 1))).1.active_connections.lookup "trip_42"
        = some ([1, 2].filter (fun c => decide (c = 1))))
    ∧ (broadcast initialManager "trip_42" "msg" (fun c => decide (c = 1))
        = (initialManager, [])) :=
  ⟨rfl,
   (claim_C6 tripManager "trip_42" "msg" (fun c => decide (c = 1)) [1, 2] rfl).1,
   (claim_C6 tripManager "trip_42" "msg" (fun c => decide (c = 1)) [1, 2] rfl).2.1
     1 (by decide) (by decide),
   (claim_C6 tripManager "trip_42" "msg" (fun c => decide (c = 1)) [1, 2] rfl).2.2.1,
   (claim_C6 tripManager "trip_42" "msg" (fun c => decide (c = 1)) [1, 2] rfl).2.2.2.2
     initialManager rfl⟩

/-! ### Claim C7 -/

theorem get_store_location (mgr : ConnectionManager) (trip loc now : String) :
    get_location_history (store_location mgr trip loc now) trip =
      (if 1000 <
          (get_location_history mgr trip
            ++ [({ payload := loc, stored_at := now } : LocationSample)]).length
       then (get_location_history mgr trip
              ++ [({ payload := loc, stored_at := now } : LocationSample)]).drop
              ((get_location_history mgr trip
                  ++ [({ payload := loc, stored_at := now } : LocationSample)]).length - 1000)
       else get_location_history mgr trip
              ++ [({ payload := loc, stored_at := now } : LocationSample)]) := by
  simp only [get_location_history, store_location, lookup_setKey_self, Option.getD_some]

theorem store_location_bounded (mgr : ConnectionManager) (trip loc now : String)
    (hb : boundedHistories mgr) :
    boundedHistories (store_location mgr trip loc now) := by
  intro e he
  simp only [store_location] at he
  rcases mem_setKey he with h1 | h2
  · exact hb e h1
  · rw [h2]
    split
    · rw [List.length_drop]
      omega
    · rename_i hle
      rw [List.length_append] at hle ⊢
      omega

theorem foldl_store_bounded (calls : List (String × String × String)) :
    boundedHistories (calls.foldl
      (fun m c => store_location m c.1 c.2.1 c.2.2) initialManager) := by
  have h : ∀ (cs : List (String × String × String)) (m : ConnectionManager),
      boundedHistories m →
      boundedHistories (cs.foldl (fun m c => store_location m c.1 c.2.1 c.2.2) m) := by
    intro cs
    induction cs with
    | nil => exact fun m hm => hm
    | cons c t ih =>
        intro m hm
        exact ih _ (store_location_bounded _ _ _ _ hm)
  exact h calls initialManager (by intro e he; simp [initialManager] at he)

theorem foldl_store_single (trip : String) (l : List (String × String)) :
    get_location_history
      (l.foldl (fun m c => store_location m trip c.1 c.2) initialManager) trip
      = (l.map (fun c =>
          ({ payload := c.1, stored_at := c.2 } : LocationSample))).drop
          (l.length - 1000) := by
  induction l using List.reverseRecOn with
  | nil => simp [get_location_history, initialManager, List.lookup]
  | append_singleton t x ih =>
      rw [List.foldl_append, List.foldl_cons, List.foldl_nil, get_store_location, ih]
      rw [List.map_append, List.map_cons, List.map_nil]
      have hHlen : (t.map (fun c =>
          ({ payload := c.1, stored_at := c.2 } : LocationSample))).length = t.length :=
        List.length_map _ _
      set H := t.map (fun c =>
        ({ payload := c.1, stored_at := c.2 } : LocationSample)) with hH
      set y : LocationSample := { payload := x.1, stored_at := x.2 } with hy
      by_cases hn : t.length < 1000
      · have h0 : t.length - 1000 = 0 := by omega
        rw [h0, List.drop_zero]
        rw [if_neg (by rw [List.length_append, hHlen]; simp; omega)]
        have h1 : (t ++ [x]).length - 1000 = 0 := by
          rw [List.length_append]
          simp
          omega
        rw [h1, List.drop_zero]
      · have hge : 1000 ≤ t.length := by omega
        have hdlen : (H.drop (t.length - 1000)).length = 1000 := by
          rw [List.length_drop, hHlen]
          omega
        rw [if_pos (by rw [List.length_append, hdlen]; simp)]
        rw [List.length_append, hdlen]
        have h1 : 1000 + [y].length - 1000 = 1 := by simp
        rw [h1]
        have hd1 : (H.drop (t.length - 1000) ++ [y]).drop 1
            = (H.drop (t.length - 1000)).drop 1 ++ [y] :=
          List.drop_append_of_le_length (by rw [hdlen]; omega)
        rw [hd1, List.drop_drop]
        have h2 : (t ++ [x]).length - 1000 = 1 + (t.length - 1000) := by
          rw [List.length_append]
          simp
          omega
        rw [h2]
        rw [List.drop_append_of_le_length (by rw [hHlen]; omega)]
        rw [Nat.add_comm (t.length - 1000) 1]

/-- C7 (confirmed): a per-trip location history never exceeds 1000 samples
(for any interleaved sequence of `store_location` calls from the initial
manager, and preserved by each call), the stored history is exactly the
tail of the stamped calls in arrival order (newest-last), and after 1001
calls for one trip exactly 1000 samples remain with precisely the oldest
sample evicted (FIFO). -/
theorem claim_C7 (mgr : ConnectionManager) (trip loc now : String)
    (hb : boundedHistories mgr) :
    boundedHistories (store_location mgr trip loc now)
    ∧ (∀ calls : List (String × String × String),
        boundedHistories (calls.foldl
          (fun m c => store_location m c.1 c.2.1 c.2.2) initialManager))
    ∧ (∀ (trip2 : String) (l : List (String × String)),
        get_location_history
          (l.foldl (fun m c => store_location m trip2 c.1 c.2) initialManager) trip2
          = (l.map (fun c =>
              ({ payload := c.1, stored_at := c.2 } : LocationSample))).drop
              (l.length - 1000))
    ∧ (∀ (trip2 : String) (l : List (String × String)), l.length = 1001 →
        (get_location_history
            (l.foldl (fun m c => store_location m trip2 c.1 c.2) initialManager)
            trip2).length = 1000
        ∧ get_location_history
            (l.foldl (fun m c => store_location m trip2 c.1 c.2) initialManager) trip2
          = (l.map (fun c =>
              ({ payload := c.1, stored_at := c.2 } : LocationSample))).drop 1) := by
  refine ⟨store_location_bounded mgr trip loc now hb, foldl_store_bounded,
    fun trip2 l => foldl_store_single trip2 l, fun trip2 l hlen => ?_⟩
  have h := foldl_store_single trip2 l
  rw [hlen] at h
  refine ⟨?_, by simpa using h⟩
  rw [h, List.length_drop, List.length_map, hlen]

/-- Witness for C7: one store preserves the bound from the empty manager,
and 1001 stores for one trip leave the last 1000 stamped samples. -/
theorem claim_C7_witness :
    boundedHistories (store_location initialManager "t" "loc" "now")
    ∧ ((List.replicate 1001 ("p", "s")).length = 1001)
    ∧ (get_location_history
          ((List.replicate 1001 ("p", "s")).foldl
            (fun m c => store_location m "t" c.1 c.2) initialManager) "t").length = 1000
    ∧ get_location_history
        ((List.replicate 1001 ("p", "s")).foldl
          (fun m c => store_location m "t" c.1 c.2) initialManager) "t"
      = ((List.replicate 1001 ("p", "s")).map (fun c =>
          ({ payload := c.1, stored_at := c.2 } : LocationSample))).drop 1 := by
  have hb0 : boundedHistories initialManager := by
    intro e he
    simp [initialManager] at he
  have h := (claim_C7 initialManager "t" "loc" "now" hb0).2.2.2 "t"
    (List.replicate 1001 ("p", "s")) (by rw [List.length_replicate])
  exact ⟨(claim_C7 initialManager "t" "loc" "now" hb0).1,
    by rw [List.length_replicate], h.1, h.2⟩

/-! ### Claim C8 -/

theorem run_price_monitor_stops (f h : String → Option ℚ) (flags : List Bool) :
    ∀ (db : DB) (now : Nat) (n : Nat),
      (∀ i, n ≤ i → flags.getD i false = false) →
      (run_price_monitor f h flags db now).2 ≤ n := by
  induction flags with
  | nil =>
      intro db now n _
      simp [run_price_monitor]
  | cons flag rest ih =>
      intro db now n hstop
      cases n with
      | zero =>
          have h0 := hstop 0 (Nat.le_refl 0)
          simp only [List.getD_cons_zero] at h0
          simp [run_price_monitor, h0]
      | succ m =>
          by_cases hf : flag = true
          · have hrest : ∀ i, m ≤ i → rest.getD i false = false := by
              intro i hi
              have := hstop (i + 1) (Nat.succ_le_succ hi)
              simpa [List.getD_cons_succ] using this
            simp only [run_price_monitor, hf, if_true]
            exact Nat.succ_le_succ (ih _ now m hrest)
          · simp [run_price_monitor, hf]

/-- C8 (confirmed): starting an already-running monitor returns
`already_running` with the module state (in particular the thread list)
unchanged, so no second loop instance is created; `stop_price_monitor`
clears the flag, and once every flag value the loop reads from wake `n`
onwards is false, the loop executes at most `n` ticks — no
`update_price_alert` call happens beyond the tick in flight at the next
wake. -/
theorem claim_C8 (s : MonitorState) (hs : s.running = true)
    (f h : String → Option ℚ) (flags : List Bool) (db : DB) (now : Nat) (n : Nat)
    (hstop : ∀ i, n ≤ i → flags.getD i false = false) :
    (start_price_monitor s = (s, .already_running))
    ∧ ((stop_price_monitor s).1.running = false)
    ∧ ((run_price_monitor f h flags db now).2 ≤ n) :=
  ⟨by simp [start_price_monitor, hs], rfl,
   run_price_monitor_stops f h flags db now n hstop⟩

/-- Witness for C8: a running state with one thread; the loop reads `true`
once and then only `false`, so it executes at most one tick. -/
theorem claim_C8_witness :
    (start_price_monitor ⟨true, [0], 1⟩ = (⟨true, [0], 1⟩, .already_running))
    ∧ ((stop_price_monitor ⟨true, [0], 1⟩).1.running = false)
    ∧ ((run_price_monitor (fun _ => none) (fun _ => none) [true, false, false]
          exampleDB 0).2 ≤ 1) :=
  claim_C8 ⟨true, [0], 1⟩ rfl (fun _ => none) (fun _ => none) [true, false, false]
    exampleDB 0 1
    (fun i hi => by
      match i, hi with
      | 1, _ => rfl
      | 2, _ => rfl
      | k + 3, _ => rfl)

/-! ### Claim C10 -/

/-- C10 (confirmed): the combined read+unread listing
(`unread_only = False`) returns at most 50 notifications, sorted newest
first, all belonging to the user, and any notification of the user left
out is no newer than every returned one (the listing silently truncates to
the 50 most recent); with `unread_only = True` every unread notification
of the user is returned, with no cap, newest first. -/
theorem claim_C10 (db : DB) (u : Int) :
    ((get_user_notifications db u false).length ≤ 50)
    ∧ List.Sorted newerFirst (get_user_notifications db u false)
    ∧ (∀ x, x ∈ get_user_notifications db u false →
        x ∈ db.notifications ∧ x.user_id = u)
    ∧ (∀ x, x ∈ db.notifications → x.user_id = u →
        x ∉ get_user_notifications db u false →
        ∀ y, y ∈ get_user_notifications db u false → x.created_at ≤ y.created_at)
    ∧ (∀ x, x ∈ get_user_notifications db u true ↔
        (x ∈ db.notifications ∧ x.user_id = u ∧ x.is_read = false))
    ∧ ((get_user_notifications db u true).length =
        (db.notifications.filter (fun n => decide (n.user_id = u) && !n.is_read)).length)
    ∧ List.Sorted newerFirst (get_user_notifications db u true) := by
  have hfalse : get_user_notifications db u false =
      (List.insertionSort newerFirst
        (db.notifications.filter (fun n => decide (n.user_id = u)))).take 50 := by
    simp [get_user_notifications]
  have htrue : get_user_notifications db u true =
      List.insertionSort newerFirst
        (db.notifications.filter (fun n => decide (n.user_id = u) && !n.is_read)) := by
    simp [get_user_notifications]
  refine ⟨?_, ?_, fun x hx => ?_, fun x hx hxu hnot y hy => ?_, fun x => ?_, ?_, ?_⟩
  · rw [hfalse]
    exact List.length_take_le 50 _
  · rw [hfalse]
    exact List.Pairwise.sublist (List.take_sublist _ _) (List.sorted_insertionSort _ _)
  · rw [hfalse] at hx
    have hx' := (List.perm_insertionSort newerFirst _).mem_iff.mp
      (List.mem_of_mem_take hx)
    have := List.mem_filter.mp hx'
    exact ⟨this.1, by simpa using this.2⟩
  · have hxm : x ∈ db.notifications.filter (fun n => decide (n.user_id = u)) :=
      List.mem_filter.mpr ⟨hx, by simp [hxu]⟩
    have hxs : x ∈ List.insertionSort newerFirst
        (db.notifications.filter (fun n => decide (n.user_id = u))) :=
      (List.perm_insertionSort newerFirst _).mem_iff.mpr hxm
    have hpw : List.Pairwise newerFirst (List.insertionSort newerFirst
        (db.notifications.filter (fun n => decide (n.user_id = u)))) :=
      List.sorted_insertionSort _ _
    rw [← List.take_append_drop 50 (List.insertionSort newerFirst
        (db.notifications.filter (fun n => decide (n.user_id = u))))] at hxs hpw
    rcases List.mem_append.mp hxs with h1 | h2
    · rw [hfalse] at hnot
      exact absurd h1 hnot
    · rw [hfalse] at hy
      exact (List.pairwise_append.mp hpw).2.2 y hy x h2
  · rw [htrue]
    rw [(List.perm_insertionSort newerFirst _).mem_iff, List.mem_filter]
    simp [Bool.and_eq_true, decide_eq_true_eq, and_assoc]
  · rw [htrue]
    exact (List.perm_insertionSort newerFirst _).length_eq
  · rw [htrue]
    exact List.sorted_insertionSort _ _

/-- Witness for C10: with 51 notifications for one user, the combined
listing keeps the 50 newest; the notification created first is left out
and is older than the newest returned one. -/
theorem claim_C10_witness :
    ((get_user_notifications manyDB 1 false).length ≤ 50)
    ∧ (oldestNotification ∈ manyDB.notifications)
    ∧ (oldestNotification.user_id = 1)
    ∧ (oldestNotification ∉ get_user_notifications manyDB 1 false)
    ∧ (newestNotification ∈ get_user_notifications manyDB 1 false)
    ∧ (oldestNotification.created_at ≤ newestNotification.created_at) := by
  have hmemdb : oldestNotification ∈ manyDB.notifications := by decide
  have hnot : oldestNotification ∉ get_user_notifications manyDB 1 false := by decide
  have hmem : newestNotification ∈ get_user_notifications manyDB 1 false := by decide
  exact ⟨(claim_C10 manyDB 1).1, hmemdb, rfl, hnot, hmem,
    (claim_C10 manyDB 1).2.2.2.1 oldestNotification hmemdb rfl hnot
      newestNotification hmem⟩

/-! ### Claim C2 -/

/-- C2 counterexample: user 7 has an open connection on `alerts_7`, a 100%
price change notification is persisted by the price-change path — and yet
no event is pushed and the registry is untouched: the claimed
persist-then-push behaviour does not exist, because
`NotificationService.send_notification` only persists and
`send_alert_to_user` is never invoked. -/
theorem claim_C2_counterexample :
    (get_connection_count wsManager (some "alerts_7") = 1)
    ∧ ((check_and_notify_system wsDB wsManager 1 (2000 : ℚ) 0).toOption.map
        (fun x => x.1.1.notifications.length) = some 1)
    ∧ ((check_and_notify_system wsDB wsManager 1 (2000 : ℚ) 0).toOption.map
        (fun x => x.2.2) = some [])
    ∧ ((check_and_notify_system wsDB wsManager 1 (2000 : ℚ) 0).toOption.map
        (fun x => x.1.2) = some wsManager) := by
  have hfindW : wsDB.price_alerts.find? (fun x => decide (x.id = 1)) = some wsAlert := rfl
  have hpct : round2 (if wsAlert.current_price ≠ 0 then
      ((2000 : ℚ) - wsAlert.current_price) / wsAlert.current_price * 100 else 0) = 100 := by
    rw [if_pos (by norm_num [wsAlert])]
    have harg : ((2000 : ℚ) - wsAlert.current_price) / wsAlert.current_price * 100
        = 100 := by norm_num [wsAlert]
    rw [harg, round2_eq_down 100 10000 (by norm_num) (by norm_num)]
    norm_num
  refine ⟨rfl, ?_, ?_, ?_⟩ <;>
  · simp only [check_and_notify_system, check_and_notify,
      update_price_alert_some wsDB 1 (2000 : ℚ) 0 wsAlert hfindW, hpct]
    rw [if_pos (by rw [abs_of_nonneg (by norm_num)]; norm_num)]
    simp [send_notification, create_notification, wsDB, Except.toOption]

/-- C2 (amended): the price-change path persists through
`check_and_notify` but performs no real-time push at all — it returns the
registry untouched with an empty push log, and propagates the underlying
error unchanged; the push helper `send_alert_to_user`, which no caller
invokes, would deliver the structured
`{type: "price_alert", data, timestamp}` event to every connection of the
user's alerts channel whose send succeeds. -/
theorem claim_C2_amended (db : DB) (mgr : ConnectionManager) (alert_id : Nat)
    (p : ℚ) (now : Nat) :
    (∀ r, check_and_notify db alert_id p now = .ok r →
        check_and_notify_system db mgr alert_id p now = .ok ((r.1, mgr), r.2, []))
    ∧ (∀ e, check_and_notify db alert_id p now = .error e →
        check_and_notify_system db mgr alert_id p now = .error e)
    ∧ (∀ (user alert ts : String) (sendOk : Nat → Bool) (conns : List Nat),
        mgr.active_connections.lookup ("alerts_" ++ user) = some conns →
        (send_alert_to_user mgr user alert ts sendOk).2
          = (conns.filter sendOk).map (fun c =>
              (c, ({ type := "price_alert", data := alert,
                     timestamp := ts } : AlertEvent)))) := by
  refine ⟨fun r hr => ?_, fun e he => ?_, fun user alert ts sendOk conns hconns => ?_⟩
  · simp [check_and_notify_system, hr]
  · simp [check_and_notify_system, he]
  · simp [send_alert_to_user, broadcast, hconns]

/-- Witness for C2: the error path propagates, and the (never-invoked)
push helper delivers to the one connection on `alerts_7`. -/
theorem claim_C2_witness :
    (check_and_notify exampleDB 5 (100 : ℚ) 0 = .error .typeErrorNoneNotIterable)
    ∧ (check_and_notify_system exampleDB wsManager 5 (100 : ℚ) 0
        = .error .typeErrorNoneNotIterable)
    ∧ ((send_alert_to_user wsManager "7" "payload" "ts" (fun _ => true)).2
        = (([0].filter (fun _ => true)).map (fun c =>
            (c, ({ type := "price_alert", data := "payload",
                   timestamp := "ts" } : AlertEvent))))) :=
  ⟨rfl,
   (claim_C2_amended exampleDB wsManager 5 (100 : ℚ) 0).2.1
     .typeErrorNoneNotIterable rfl,
   (claim_C2_amended exampleDB wsManager 5 (100 : ℚ) 0).2.2
     "7" "payload" "ts" (fun _ => true) [0] rfl⟩

end AITravel
